import Mathlib

/-!
Shallow embedding of the UART driver in src/emb1.c and verification of its
specification.  The driver consists of three functions, `write_uart`,
`read_uart` and `init_uart`, all operating on a `UART_HANDLE` structure that
holds the memory-mapped register addresses and an `isInitialized` flag.
Pointer values are modelled as natural-number addresses, register contents as
natural numbers reduced mod 2^32 where the C code can overflow, and the
hardware environment (which mutates the read-only status and receive-data
registers asynchronously, as the source comments on `volatile` explain) as an
explicit sequence of values presented at successive reads.
-/

/-- Constant `UART_BASE` from the source: the fixed base address 0xFC000000. -/
def UART_BASE : Nat := 0xFC000000

/-- Register offset of the control register CNR. -/
def CNR_OFFSET : Nat := 0x0

/-- Register offset of the baud-rate register BRR. -/
def BRR_OFFSET : Nat := 0x4

/-- Register offset of the status register STA. -/
def STA_OFFSET : Nat := 0x8

/-- Register offset of the transmit-data register TDR. -/
def TDR_OFFSET : Nat := 0xC

/-- Register offset of the receive-data register RDR. -/
def RDR_OFFSET : Nat := 0x10

/-- Constant `TIMEOUT_LIMIT` from the source: the bounded poll-iteration count. -/
def TIMEOUT_LIMIT : Nat := 1000000

/-- The `UART_HANDLE` struct of the source.  The five `volatile uint32_t *`
register pointers are modelled as the addresses they hold. -/
structure UART_HANDLE where
  baseAddress : Nat
  cnr : Nat
  brr : Nat
  sta : Nat
  tdr : Nat
  rdr : Nat
  isInitialized : Bool
deriving Repr, DecidableEq

/-- The hardware environment during one driver call.  The source stores the
register pointers as `volatile uint32_t *` precisely because, as its comments
say, the values at those addresses "can change regardless of the program
flow": the device drives STA and RDR.  `staSeq i` is the 32-bit value the
status register would present at the i-th volatile read performed during the
call, and `rdrVal` is the value the receive-data register presents when read. -/
structure HwEnv where
  staSeq : Nat → Nat
  rdrVal : Nat

/-- One access to a memory-mapped register, recorded so that claims of the
form "no register is read or written" can be stated.  `read a` is a volatile
load from address `a`; `write a v` is a volatile store of `v` to `a`. -/
inductive Access where
  | read (addr : Nat) : Access
  | write (addr : Nat) (v : Nat) : Access
deriving Repr, DecidableEq

/-- Replay the register writes of an access list onto a memory, yielding the
final contents at each address (reads do not change memory). -/
def runMem (m : Nat → Nat) : List Access → (Nat → Nat)
  | [] => m
  | Access.read _ :: rest => runMem m rest
  | Access.write a v :: rest => runMem (fun x => if x = a then v else m x) rest

/-- Which control-flow branch of a driver function executed.  The source
identifies each branch by a distinct printf diagnostic: `nullHandle` is the
"Null pointer encountered" branch, `notInitialized` the "not initialized"
branch, `timeout` the "Maximum timeout reached" branch, and `ok` the branch
that reaches the register operation.  This is instrumentation of the model:
the C functions do not return this value (`write_uart` and `init_uart`
return void; `read_uart` returns an int, modelled separately). -/
inductive UartPath where
  | nullHandle : UartPath
  | notInitialized : UartPath
  | timeout : UartPath
  | ok : UartPath
deriving Repr, DecidableEq

/-- The busy-wait loop shared by `write_uart` and `read_uart`:

    int timer = 0;
    while (!(staVal & mask)) \x7b
      timer++;
      if (timer > TIMEOUT_LIMIT) return <timeout>;
    \x7d

`staVal` is the local snapshot of the status register taken ONCE before the
loop (the loop body performs no further register read, so the condition tests
the same snapshot on every iteration).  Returns `true` when the loop exits
normally (mask bit observed set in the snapshot) and `false` when the timeout
return fires.  `fuel` only bounds the recursion: called with
`TIMEOUT_LIMIT + 1` it exceeds the number of iterations the timer check
permits, so the fuel-exhaustion branch (which also yields the timeout result)
is unreachable and the function mirrors the loop exactly. -/
def pollLoop (staVal mask timer : Nat) : Nat → Bool
  | 0 => false
  | fuel + 1 =>
    if staVal &&& mask = 0 then
      if timer + 1 > TIMEOUT_LIMIT then false
      else pollLoop staVal mask (timer + 1) fuel
    else true

/-- Result of `write_uart`.  The C function returns void: there is no value
field.  `handle` is the handle after the call (the function never assigns to
`*h`), `path` the branch taken, `accesses` the register accesses performed. -/
structure WriteResult where
  handle : Option UART_HANDLE
  path : UartPath
  accesses : List Access
deriving Repr, DecidableEq

/-- Result of `read_uart`.  `value` is the C return value (an int). -/
structure ReadResult where
  handle : Option UART_HANDLE
  value : Int
  path : UartPath
  accesses : List Access
deriving Repr, DecidableEq

/-- Result of `init_uart`.  The C function returns void: no value field. -/
structure InitResult where
  handle : Option UART_HANDLE
  path : UartPath
  accesses : List Access
deriving Repr, DecidableEq

/-- Conversion of a `uint32_t` value to a C `int` (32-bit two's complement),
as performed by `return rdrVal;` in `read_uart`. -/
def toInt32 (v : Nat) : Int :=
  if v % 4294967296 < 2147483648 then ((v % 4294967296 : Nat) : Int)
  else ((v % 4294967296 : Nat) : Int) - 4294967296

/-- `write_uart(UART_HANDLE *h, char c)` from src/emb1.c lines 87-123.
Checks the handle for null, then `isInitialized`; reads the status register
once into the local `staVal`; runs the busy-wait loop on bit 1 (0x02,
TX ready); on normal exit stores the byte to the transmit-data register. -/
def write_uart (h : Option UART_HANDLE) (c : Nat) (env : HwEnv) : WriteResult :=
  match h with
  | none => { handle := none, path := UartPath.nullHandle, accesses := [] }
  | some hh =>
    if hh.isInitialized = false then
      { handle := some hh, path := UartPath.notInitialized, accesses := [] }
    else
      let staVal := env.staSeq 0 % 4294967296
      if pollLoop staVal 0x02 0 (TIMEOUT_LIMIT + 1) then
        { handle := some hh, path := UartPath.ok,
          accesses := [Access.read hh.sta, Access.write hh.tdr (c % 4294967296)] }
      else
        { handle := some hh, path := UartPath.timeout,
          accesses := [Access.read hh.sta] }

/-- `read_uart(UART_HANDLE *h)` from src/emb1.c lines 126-155.  Returns -1 on
the null-handle, not-initialized and timeout branches; otherwise reads the
status register once into `staVal`, runs the busy-wait loop on bit 0 (0x01,
RX ready), then reads the receive-data register and returns its `uint32_t`
value converted to int. -/
def read_uart (h : Option UART_HANDLE) (env : HwEnv) : ReadResult :=
  match h with
  | none => { handle := none, value := -1, path := UartPath.nullHandle, accesses := [] }
  | some hh =>
    if hh.isInitialized = false then
      { handle := some hh, value := -1, path := UartPath.notInitialized, accesses := [] }
    else
      let staVal := env.staSeq 0 % 4294967296
      if pollLoop staVal 0x01 0 (TIMEOUT_LIMIT + 1) then
        { handle := some hh, value := toInt32 (env.rdrVal % 4294967296),
          path := UartPath.ok,
          accesses := [Access.read hh.sta, Access.read hh.rdr] }
      else
        { handle := some hh, value := -1, path := UartPath.timeout,
          accesses := [Access.read hh.sta] }

/-- `init_uart(UART_HANDLE *h, bool useMock)` from src/emb1.c lines 158-177.
After the null check it unconditionally points every register at
`UART_BASE + offset` (the `useMock` parameter is never consulted), stores
0x3 to the control register and 0x0866 to the baud-rate register, and sets
`isInitialized`.  The two register stores are through the just-assigned
pointers `h->cnr` and `h->brr`. -/
def init_uart (h : Option UART_HANDLE) (useMock : Bool) : InitResult :=
  match h with
  | none => { handle := none, path := UartPath.nullHandle, accesses := [] }
  | some _ =>
    let hh2 : UART_HANDLE :=
      { baseAddress := UART_BASE
        cnr := UART_BASE + CNR_OFFSET
        brr := UART_BASE + BRR_OFFSET
        sta := UART_BASE + STA_OFFSET
        tdr := UART_BASE + TDR_OFFSET
        rdr := UART_BASE + RDR_OFFSET
        isInitialized := true }
    { handle := some hh2, path := UartPath.ok,
      accesses := [Access.write hh2.cnr 0x3, Access.write hh2.brr 0x0866] }

/-- Bit-field packing of the baud-rate register, as documented in the source
header comment (lines 17-36): BRR[0:3] is the baud code, BRR[4:5] the parity
code, BRR[8] the hardware-flow-control enable, BRR[12:15] the stop-bit
count. -/
def packBRR (baud parity flow stop : Nat) : Nat :=
  (baud &&& 0xF) ||| ((parity &&& 0x3) <<< 4) ||| ((flow &&& 0x1) <<< 8) |||
    ((stop &&& 0xF) <<< 12)

/-- A handle exactly as `init_uart` leaves it: registers at the fixed base
address, initialized. -/
def readyHandle : UART_HANDLE :=
  { baseAddress := UART_BASE
    cnr := UART_BASE + CNR_OFFSET
    brr := UART_BASE + BRR_OFFSET
    sta := UART_BASE + STA_OFFSET
    tdr := UART_BASE + TDR_OFFSET
    rdr := UART_BASE + RDR_OFFSET
    isInitialized := true }

/-- A handle that has not been initialized (as declared in `main` before
`init_uart` runs: `isInitialized` set false, registers unset). -/
def uninitHandle : UART_HANDLE :=
  { baseAddress := 0, cnr := 0, brr := 0, sta := 0, tdr := 0, rdr := 0,
    isInitialized := false }

/-- An environment in which the status register reads 0 on the first poll and
has both ready bits set (value 3) on every later poll: the device becomes
ready at poll iteration 1, far below the 1,000,000 bound. -/
def lateReadyEnv : HwEnv :=
  { staSeq := fun i => if i = 0 then 0 else 3, rdrVal := 66 }

/-- An environment in which the status register always reads 0: the device
never becomes ready, so every bounded poll must time out. -/
def timeoutEnv : HwEnv :=
  { staSeq := fun _ => 0, rdrVal := 66 }

/-- An environment in which both ready bits are set from the start and the
receive-data register holds 0xFFFFFFFF. -/
def ffEnv : HwEnv :=
  { staSeq := fun _ => 3, rdrVal := 0xFFFFFFFF }

/-- When the snapshot `staVal` has the mask bit clear, the loop can never
exit normally (the body performs no further register read, so the condition
never changes): the result is the timeout return, for every timer value and
every fuel. -/
theorem pollLoop_clear (staVal mask : Nat) (h : staVal &&& mask = 0) :
    ∀ timer fuel, pollLoop staVal mask timer fuel = false := by
  intro timer fuel
  induction fuel generalizing timer with
  | zero => rfl
  | succ n ih => simp [pollLoop, h, ih]

/-- When the snapshot `staVal` has the mask bit set, the loop exits normally
on its first condition test. -/
theorem pollLoop_set (staVal mask timer fuel : Nat) (h : staVal &&& mask ≠ 0) :
    pollLoop staVal mask timer (fuel + 1) = true := by
  simp [pollLoop, h]

/-- C1: the claim says write_uart and read_uart repeatedly poll the status
register, so a ready bit that becomes set at some poll iteration before the
1,000,000 bound makes the operation proceed.  The code instead reads STA once
into the local `staVal` before the loop and re-tests that stale snapshot.
Evaluation at the failing input: in `lateReadyEnv` both ready bits are set
from poll iteration 1 on (far below the bound), yet both operations take the
timeout branch and perform exactly one status-register read. -/
theorem poll_misses_late_ready :
    lateReadyEnv.staSeq 1 &&& 0x02 ≠ 0 ∧
    lateReadyEnv.staSeq 1 &&& 0x01 ≠ 0 ∧
    1 < TIMEOUT_LIMIT ∧
    (write_uart (some readyHandle) 65 lateReadyEnv).path = UartPath.timeout ∧
    (write_uart (some readyHandle) 65 lateReadyEnv).accesses =
      [Access.read readyHandle.sta] ∧
    (read_uart (some readyHandle) lateReadyEnv).path = UartPath.timeout ∧
    (read_uart (some readyHandle) lateReadyEnv).accesses =
      [Access.read readyHandle.sta] := by
  refine ⟨by decide, by decide, by decide, ?_, ?_, ?_, ?_⟩ <;>
    simp [write_uart, read_uart, readyHandle, lateReadyEnv, pollLoop_clear]

/-- C2: the claim says the value init_uart writes to the baud-rate register
equals the packed encoding of baud 6, parity 2, flow 0, stop-bit count 1 with
no other bits set.  Evaluation: the write is of 0x866, while the packing
documented in the source header gives 0x1026; moreover 0x866 has stop-bit
field 0 and the stray bit 11 set, contradicting the source comment "Baud rate
115200, no parity, 1 stop bit". -/
theorem init_brr_value_vs_documented_packing :
    (init_uart (some uninitHandle) false).accesses =
      [Access.write (UART_BASE + CNR_OFFSET) 0x3,
       Access.write (UART_BASE + BRR_OFFSET) 0x866] ∧
    packBRR 6 2 0 1 = 0x1026 ∧
    (0x866 : Nat) ≠ packBRR 6 2 0 1 ∧
    ((0x866 : Nat) >>> 12) &&& 0xF = 0 ∧
    ((0x866 : Nat) >>> 11) &&& 0x1 = 1 :=
  ⟨rfl, by decide, by decide, by decide, by decide⟩

/-- C3 counterexample: the return value of read_uart (the only value any of
the three C functions returns) does not distinguish the error kinds — the
null-handle, not-initialized and timeout branches all return -1 — and -1 is a
sentinel mixed into the success channel: a successful read (ok branch) of
receive-register value 0xFFFFFFFF also returns -1. -/
theorem read_uart_return_not_distinguishing :
    (read_uart none timeoutEnv).value = -1 ∧
    (read_uart (some uninitHandle) timeoutEnv).value = -1 ∧
    (read_uart (some readyHandle) timeoutEnv).path = UartPath.timeout ∧
    (read_uart (some readyHandle) timeoutEnv).value = -1 ∧
    (read_uart (some readyHandle) ffEnv).path = UartPath.ok ∧
    (read_uart (some readyHandle) ffEnv).value = -1 := by
  refine ⟨rfl, rfl, ?_, ?_, ?_, ?_⟩ <;>
    simp [read_uart, readyHandle, timeoutEnv, ffEnv, toInt32,
      pollLoop_clear, pollLoop_set]

/-- C3 amended: the driver signals errors through diagnostics and, in
read_uart, through the sentinel return value -1, which is shared by all
three error kinds and collides with a successful read of register value
0xFFFFFFFF; write_uart and init_uart return no outcome at all. -/
theorem read_uart_sentinel_errors (hu hh : UART_HANDLE) (envT envF : HwEnv)
    (hun : hu.isInitialized = false) (hinit : hh.isInitialized = true)
    (hT : envT.staSeq 0 % 4294967296 &&& 0x01 = 0)
    (hF : envF.staSeq 0 % 4294967296 &&& 0x01 ≠ 0)
    (hV : envF.rdrVal % 4294967296 = 0xFFFFFFFF) :
    (read_uart none envT).value = -1 ∧
    (read_uart (some hu) envT).value = -1 ∧
    (read_uart (some hh) envT).path = UartPath.timeout ∧
    (read_uart (some hh) envT).value = -1 ∧
    (read_uart (some hh) envF).path = UartPath.ok ∧
    (read_uart (some hh) envF).value = -1 := by
  refine ⟨rfl, ?_, ?_, ?_, ?_, ?_⟩
  · simp [read_uart, hun]
  · simp [read_uart, hinit, pollLoop_clear, hT]
  · simp [read_uart, hinit, pollLoop_clear, hT]
  · simp [read_uart, hinit]
    rw [pollLoop_set _ _ _ _ hF]
    simp
  · simp [read_uart, hinit]
    rw [pollLoop_set _ _ _ _ hF]
    simp [toInt32, hV]

/-- Witness for read_uart_sentinel_errors at concrete inputs. -/
theorem read_uart_sentinel_errors_witness :
    (read_uart none timeoutEnv).value = -1 ∧
    (read_uart (some uninitHandle) timeoutEnv).value = -1 ∧
    (read_uart (some readyHandle) timeoutEnv).path = UartPath.timeout ∧
    (read_uart (some readyHandle) timeoutEnv).value = -1 ∧
    (read_uart (some readyHandle) ffEnv).path = UartPath.ok ∧
    (read_uart (some readyHandle) ffEnv).value = -1 :=
  read_uart_sentinel_errors uninitHandle readyHandle timeoutEnv ffEnv
    rfl rfl (by decide) (by decide) (by decide)

/-- C4 counterexample: the claim says the register-addressing scheme that
init_uart configures differs between useMock = true and useMock = false.  At
the concrete valid handle `uninitHandle` the two calls produce identical
results (the function never consults the flag). -/
theorem init_uart_same_for_both_modes :
    init_uart (some uninitHandle) true = init_uart (some uninitHandle) false :=
  rfl

/-- C4 amended: init_uart ignores its useMock flag: for every handle the
result is identical for both flag values, and on a valid handle the
configured addressing is always the real-hardware fixed base UART_BASE. -/
theorem init_uart_mock_flag_ignored (h : Option UART_HANDLE) (m1 m2 : Bool) :
    init_uart h m1 = init_uart h m2 ∧
    (∀ hh : UART_HANDLE,
      Option.map UART_HANDLE.baseAddress (init_uart (some hh) m1).handle =
        some UART_BASE) := by
  cases h <;> exact ⟨rfl, fun _ => rfl⟩

/-- C5: on every valid handle, init_uart yields a handle whose five register
addresses are its baseAddress plus the offsets 0x0, 0x4, 0x8, 0xC, 0x10,
whose isInitialized flag is true, and whose register writes leave the control
register holding 0x3 and the baud-rate register holding 0x866 (starting from
any memory contents). -/
theorem init_uart_configures (hh : UART_HANDLE) (m : Bool) (mem : Nat → Nat) :
    ∃ h2 : UART_HANDLE,
      (init_uart (some hh) m).handle = some h2 ∧
      h2.cnr = h2.baseAddress + 0x0 ∧
      h2.brr = h2.baseAddress + 0x4 ∧
      h2.sta = h2.baseAddress + 0x8 ∧
      h2.tdr = h2.baseAddress + 0xC ∧
      h2.rdr = h2.baseAddress + 0x10 ∧
      h2.isInitialized = true ∧
      runMem mem (init_uart (some hh) m).accesses h2.cnr = 0x3 ∧
      runMem mem (init_uart (some hh) m).accesses h2.brr = 0x866 := by
  refine ⟨_, rfl, rfl, rfl, rfl, rfl, rfl, rfl, ?_, ?_⟩ <;>
    simp [init_uart, runMem, UART_BASE, CNR_OFFSET, BRR_OFFSET]

/-- C6: write_uart and read_uart on a non-null handle with isInitialized
false take the not-initialized branch (its distinct diagnostic), perform no
register access, leave the handle unchanged, and read_uart returns -1. -/
theorem uninit_no_register_access (hh : UART_HANDLE) (c : Nat) (env : HwEnv)
    (h : hh.isInitialized = false) :
    write_uart (some hh) c env =
      { handle := some hh, path := UartPath.notInitialized, accesses := [] } ∧
    read_uart (some hh) env =
      { handle := some hh, value := -1, path := UartPath.notInitialized,
        accesses := [] } := by
  constructor <;> simp [write_uart, read_uart, h]

/-- Witness for uninit_no_register_access at concrete inputs. -/
theorem uninit_no_register_access_witness :
    uninitHandle.isInitialized = false ∧
    (write_uart (some uninitHandle) 65 timeoutEnv =
      { handle := some uninitHandle, path := UartPath.notInitialized,
        accesses := [] } ∧
     read_uart (some uninitHandle) timeoutEnv =
      { handle := some uninitHandle, value := -1,
        path := UartPath.notInitialized, accesses := [] }) :=
  ⟨rfl, uninit_no_register_access uninitHandle 65 timeoutEnv rfl⟩

/-- C7: every operation called with a null handle takes the null-handle
branch (its distinct diagnostic), performs no register access, and changes no
handle state; read_uart returns -1 there. -/
theorem null_handle_rejected (c : Nat) (m : Bool) (env : HwEnv) :
    write_uart none c env =
      { handle := none, path := UartPath.nullHandle, accesses := [] } ∧
    read_uart none env =
      { handle := none, value := -1, path := UartPath.nullHandle,
        accesses := [] } ∧
    init_uart none m =
      { handle := none, path := UartPath.nullHandle, accesses := [] } :=
  ⟨rfl, rfl, rfl⟩

/-- C8: on an initialized handle, write_uart and read_uart return the handle
with every field unchanged, whatever the hardware environment does —
including when the call times out — so isInitialized is never reset and a
timed-out call leaves the handle exactly as ready as before. -/
theorem ready_handle_never_modified (hh : UART_HANDLE) (c : Nat) (env : HwEnv)
    (hinit : hh.isInitialized = true) :
    (write_uart (some hh) c env).handle = some hh ∧
    (read_uart (some hh) env).handle = some hh := by
  constructor <;> simp [write_uart, read_uart, hinit, apply_ite]

/-- Witness for ready_handle_never_modified at concrete inputs. -/
theorem ready_handle_never_modified_witness :
    readyHandle.isInitialized = true ∧
    ((write_uart (some readyHandle) 65 timeoutEnv).handle = some readyHandle ∧
     (read_uart (some readyHandle) timeoutEnv).handle = some readyHandle) :=
  ⟨rfl, ready_handle_never_modified readyHandle 65 timeoutEnv rfl⟩

/-- C9: init_uart is idempotent: running it again on the handle produced by a
first call yields the identical result (same handle fields, same branch, same
register writes), and replaying the second call's register writes after the
first call's leaves every memory address with the same final contents as the
first call alone. -/
theorem init_uart_idempotent (hh : UART_HANDLE) (m1 m2 : Bool) :
    init_uart ((init_uart (some hh) m1).handle) m2 = init_uart (some hh) m1 ∧
    (∀ (mem : Nat → Nat) (a : Nat),
      runMem (runMem mem (init_uart (some hh) m1).accesses)
        (init_uart (some hh) m2).accesses a =
      runMem mem (init_uart (some hh) m1).accesses a) := by
  refine ⟨rfl, fun mem a => ?_⟩
  simp only [init_uart, runMem]
  split_ifs <;> rfl

/-- C10: read_uart returns -1 on each of the three error branches, and on the
ok branch returns the full 32-bit receive-register value converted to a
signed int with no masking to the byte range; with receive-register value
0xFFFFFFFF the ok branch returns -1, indistinguishable from the error
return. -/
theorem read_uart_minus_one_all_errors (hu hh : UART_HANDLE)
    (envT envR : HwEnv)
    (hun : hu.isInitialized = false) (hinit : hh.isInitialized = true)
    (hT : envT.staSeq 0 % 4294967296 &&& 0x01 = 0)
    (hR : envR.staSeq 0 % 4294967296 &&& 0x01 ≠ 0) :
    (read_uart none envT).value = -1 ∧
    (read_uart (some hu) envT).value = -1 ∧
    (read_uart (some hh) envT).value = -1 ∧
    (read_uart (some hh) envR).value = toInt32 (envR.rdrVal % 4294967296) ∧
    (envR.rdrVal % 4294967296 = 0xFFFFFFFF →
      (read_uart (some hh) envR).path = UartPath.ok ∧
      (read_uart (some hh) envR).value = -1) := by
  refine ⟨rfl, ?_, ?_, ?_, fun hV => ⟨?_, ?_⟩⟩
  · simp [read_uart, hun]
  · simp [read_uart, hinit, pollLoop_clear, hT]
  · simp [read_uart, hinit]
    rw [pollLoop_set _ _ _ _ hR]
    simp
  · simp [read_uart, hinit]
    rw [pollLoop_set _ _ _ _ hR]
    simp
  · simp [read_uart, hinit]
    rw [pollLoop_set _ _ _ _ hR]
    simp [toInt32, hV]

/-- Witness for read_uart_minus_one_all_errors at concrete inputs: in ffEnv
the receive register holds 0xFFFFFFFF and a successful read returns -1. -/
theorem read_uart_minus_one_all_errors_witness :
    (read_uart none timeoutEnv).value = -1 ∧
    (read_uart (some uninitHandle) timeoutEnv).value = -1 ∧
    (read_uart (some readyHandle) timeoutEnv).value = -1 ∧
    (read_uart (some readyHandle) ffEnv).value =
      toInt32 (ffEnv.rdrVal % 4294967296) ∧
    (read_uart (some readyHandle) ffEnv).path = UartPath.ok ∧
    (read_uart (some readyHandle) ffEnv).value = -1 :=
  have h := read_uart_minus_one_all_errors uninitHandle readyHandle timeoutEnv
    ffEnv rfl rfl (by decide) (by decide)
  ⟨h.1, h.2.1, h.2.2.1, h.2.2.2.1, (h.2.2.2.2 (by decide)).1,
    (h.2.2.2.2 (by decide)).2⟩
